import Mathlib

/-!
Verification of the LXD backend of the multipass VM lifecycle controller:
a shallow embedding of `lxd_virtual_machine.cpp` and `lxd_mount_handler.cpp`,
with theorems about the state mapping, the lifecycle operations, the mount
device manager's device-map updates, and the DHCP lease resolver.
-/

namespace LXD

/-- The controller-visible VM state enum (`multipass::VirtualMachine::State`). -/
inductive State where
  | off
  | stopped
  | starting
  | restarting
  | running
  | delayed_shutdown
  | suspending
  | suspended
  | unknown
deriving DecidableEq, Repr

/-- Embedding of the anonymous-namespace helper `instance_state_for`
(`lxd_virtual_machine.cpp`, the switch over `metadata["status_code"]`).
The `Int` input is the daemon status code (`toInt(-1)` when absent).
Returns the mapped `State` together with a flag that is `true` exactly when
the `default:` branch fired and logged "Got unexpected LXD state". -/
def instance_state_for (code : Int) : State × Bool :=
  if code = 101 ∨ code = 103 ∨ code = 107 ∨ code = 111 then (State.running, false)
  else if code = 102 then (State.stopped, false)
  else if code = 106 then (State.starting, false)
  else if code = 109 then (State.suspending, false)
  else if code = 110 then (State.suspended, false)
  else if code = 104 ∨ code = 108 ∨ code = 112 then (State.unknown, false)
  else (State.unknown, true)

/-- The mutable fields of `mp::LXDVirtualMachine` relevant to the lifecycle
claims: the cached `state`, the cached SSH `port` (an `std::optional<int>`),
the `shutdown_while_starting` flag guarded by the condition variable, and the
`update_shutdown_status` flag consulted before persisting on stop. -/
structure VM where
  state : State
  port : Option Int
  shutdown_while_starting : Bool
  update_shutdown_status : Bool
deriving DecidableEq, Repr

/-- The exceptions `lxd_request` can raise while querying the state URL:
`LocalSocketConnectionException` (transport failure, caught by
`current_state`) and `LXDNotFoundException` (propagated). -/
inductive PollError where
  | localSocketConnection
  | notFound
deriving DecidableEq, Repr

/-- Result of a `current_state()` call: the returned state, the updated
object fields, and whether the warning log in the catch branch fired. -/
structure CSResult where
  ret : State
  vm : VM
  logged_warning : Bool
deriving DecidableEq, Repr

/-- Embedding of `mp::LXDVirtualMachine::current_state()`.  The remote GET is
modelled by its outcome `poll`: either the daemon status code, or the
exception the request raised.  On a status code, the code is mapped through
`instance_state_for`; the debounce guard keeps the cached state when it is
`delayed_shutdown` or `starting` and the polled state is `running`; otherwise
the cache is overwritten.  A `LocalSocketConnectionException` is caught: the
warning is logged, the cache collapses to `unknown`, and `unknown` is
returned.  Any other exception propagates (`Except.error`). -/
def current_state (vm : VM) (poll : Except PollError Int) : Except PollError CSResult :=
  match poll with
  | .ok code =>
    let present := (instance_state_for code).1
    if (vm.state = State.delayed_shutdown ∨ vm.state = State.starting) ∧
        present = State.running then
      .ok ⟨vm.state, vm, false⟩
    else
      .ok ⟨present, { vm with state := present }, false⟩
  | .error PollError.localSocketConnection =>
    .ok ⟨State.unknown, { vm with state := State.unknown }, true⟩
  | .error PollError.notFound => .error PollError.notFound

/-- Observable outcome of a completed `stop()` call: the final object fields,
the remote state-change actions issued via `request_state` (in order), and
the states persisted via `update_state()`/`persist_state_for`. -/
structure StopOutcome where
  vm : VM
  requests : List String
  persisted : List State
deriving DecidableEq, Repr

/-- Embedding of `mp::LXDVirtualMachine::stop()`.  Under the state lock it
re-derives the state via `current_state()` (whose remote GET outcome is the
`poll` argument).  If the fresh state is `stopped` or `suspended` it logs and
returns with no action.  Otherwise it issues `request_state("stop")`, sets the
cached state to `stopped`, and — when the fresh state was `starting` — blocks
on `state_wait` until `shutdown_while_starting` holds; `signal_delivered`
says whether that signal is (ever) delivered, and `Option.none` models the
call never returning.  On completion the cached port is cleared and, when
`update_shutdown_status` is set, the state is persisted. -/
def stop (vm : VM) (poll : Except PollError Int) (signal_delivered : Bool) :
    Except PollError (Option StopOutcome) :=
  match current_state vm poll with
  | .error e => .error e
  | .ok cs =>
    let present := cs.ret
    let vm1 := cs.vm
    if present = State.stopped then
      .ok (some ⟨vm1, [], []⟩)
    else if present = State.suspended then
      .ok (some ⟨vm1, [], []⟩)
    else
      let vm2 : VM := { vm1 with state := State.stopped }
      if present = State.starting ∧ ¬ (signal_delivered ∨ vm1.shutdown_while_starting) then
        .ok none
      else
        let vm3 : VM := { vm2 with
          port := none,
          shutdown_while_starting :=
            vm2.shutdown_while_starting ∨ present = State.starting }
        .ok (some ⟨vm3, ["stop"],
          if vm.update_shutdown_status then [State.stopped] else []⟩)

/-- Embedding of `mp::LXDVirtualMachine::ssh_port()`: unconditionally 22. -/
def ssh_port (_ : VM) : Int := 22

/-- One device record of the instance's `"devices"` JSON object as the mount
handler writes it: `{"path": target, "source": source, "type": "disk"}`. -/
structure Device where
  path : String
  source : String
  dtype : String
deriving DecidableEq, Repr

/-- The instance's remote device map (`QJsonObject device_list`), as an
association list from device name to record; keys are unique. -/
abbrev DeviceMap := List (String × Device)

/-- `QJsonObject::insert` on the device map (`lxd_device_add`): replaces the
value of an existing key in place, otherwise adds the new entry. -/
def devInsert : DeviceMap → String → Device → DeviceMap
  | [], k, v => [(k, v)]
  | p :: ps, k, v => if p.1 = k then (k, v) :: ps else p :: devInsert ps k v

/-- `QJsonObject::remove` on the device map (`lxd_device_remove`): deletes
the entry with the given key; a missing key is not an error. -/
def devRemove : DeviceMap → String → DeviceMap
  | [], _ => []
  | p :: ps, k => if p.1 = k then devRemove ps k else p :: devRemove ps k

/-- `QJsonObject::operator[]` lookup on the device map. -/
def devLookup : DeviceMap → String → Option Device
  | [], _ => none
  | p :: ps, k => if p.1 = k then some p.2 else devLookup ps k

/-- Embedding of `LXDMountHandler::lxd_device_add`: GET the instance
configuration, insert `{path: target, source: source, type: "disk"}` under
`device_name` into the read device map, and PUT the merged map back. The
result is the device map the PUT writes. -/
def lxd_device_add (devices : DeviceMap) (device_name target source : String) : DeviceMap :=
  devInsert devices device_name ⟨target, source, "disk"⟩

/-- Embedding of `LXDMountHandler::lxd_device_remove`: GET the instance
configuration, remove the entry under `device_name` from the read device
map, and PUT the result back. -/
def lxd_device_remove (devices : DeviceMap) (device_name : String) : DeviceMap :=
  devRemove devices device_name

/-- Embedding of the `LXDMountHandler` constructor: after computing the
device name from the target path, it reads the owning instance's current
state; unless that state is `off` or `stopped` it throws
`std::runtime_error("Please stop the instance <name> before mount it natively.")`
before any remote request, otherwise it proceeds to `lxd_device_add`.
`Except.error` is the throw (no GET/PUT issued); `Except.ok` carries the
device map written by the constructor's `lxd_device_add`. -/
def lxd_mount_handler_construct (vm_name : String) (st : State) (devices : DeviceMap)
    (device_name target source : String) : Except String DeviceMap :=
  if st ≠ State.off ∧ st ≠ State.stopped then
    .error ("Please stop the instance " ++ vm_name ++ " before mount it natively.")
  else
    .ok (lxd_device_add devices device_name target source)

/-- One record of the daemon's DHCP lease array: the `"hwaddr"` and
`"address"` string fields the resolver reads. -/
structure Lease where
  hwaddr : String
  address : String
deriving DecidableEq, Repr

/-- Embedding of the anonymous-namespace helper `get_ip_for`
(`lxd_virtual_machine.cpp`): linear scan of the lease array for the first
entry whose `hwaddr` equals the queried MAC; constructing `mp::IPAddress`
from the `address` field is modelled by `parse`, whose `none` stands for the
`std::invalid_argument` that the loop catches and `continue`s past.  No
match yields `none` (`std::nullopt`), not an error. -/
def get_ip_for (parse : String → Option Nat) (mac_addr : String) : List Lease → Option Nat
  | [] => none
  | l :: ls =>
    if l.hwaddr = mac_addr then
      match parse l.address with
      | some ip => some ip
      | none => get_ip_for parse mac_addr ls
    else
      get_ip_for parse mac_addr ls

/-- Embedding of `LXDVirtualMachine::update_cpus`: `assert(num_cores > 0)`
aborts on a non-positive argument (`none`, no request issued); otherwise the
PATCH `{"config": {"limits.cpu": num_cores}}` is issued. -/
def update_cpus (num_cores : Int) : Option (String × List (String × String)) :=
  if 0 < num_cores then some ("PATCH", [("limits.cpu", toString num_cores)]) else none

/-- Embedding of `LXDVirtualMachine::resize_memory`:
`assert(new_size.in_bytes() > 0)` aborts on a non-positive size (`none`, no
request issued); otherwise the PATCH `{"config": {"limits.memory": bytes}}`
is issued. -/
def resize_memory (bytes : Int) : Option (String × List (String × String)) :=
  if 0 < bytes then some ("PATCH", [("limits.memory", toString bytes)]) else none

/-- Embedding of `LXDVirtualMachine::resize_disk`:
`assert(new_size.in_bytes() > 0)` aborts on a non-positive size (`none`, no
request issued); otherwise the PATCH
`{"devices": {"root": {"path": "/", "pool": pool, "size": bytes, "type": "disk"}}}`
is issued. -/
def resize_disk (storage_pool : String) (bytes : Int) :
    Option (String × List (String × String)) :=
  if 0 < bytes then
    some ("PATCH",
      [("path", "/"), ("pool", storage_pool), ("size", toString bytes), ("type", "disk")])
  else none

/-! Helper lemmas about the device-map operations. -/

/-- Inserting under a key and then removing that key is the same as removing
the key from the original map. -/
theorem devRemove_devInsert (m : DeviceMap) (k : String) (v : Device) :
    devRemove (devInsert m k v) k = devRemove m k := by
  induction m with
  | nil => simp [devInsert, devRemove]
  | cons p ps ih =>
    by_cases h : p.1 = k
    · simp [devInsert, devRemove, h]
    · simp [devInsert, devRemove, h, ih]

/-- After removing a key, looking it up yields nothing. -/
theorem devLookup_devRemove_self (m : DeviceMap) (k : String) :
    devLookup (devRemove m k) k = none := by
  induction m with
  | nil => rfl
  | cons p ps ih => by_cases h : p.1 = k <;> simp [devRemove, devLookup, h, ih]

/-- Removing one key leaves lookups of every other key unchanged. -/
theorem devLookup_devRemove_ne (m : DeviceMap) (k j : String) (hj : j ≠ k) :
    devLookup (devRemove m k) j = devLookup m j := by
  induction m with
  | nil => rfl
  | cons p ps ih =>
    by_cases hpk : p.1 = k
    · simp [devRemove, devLookup, hpk, Ne.symm hj, ih]
    · by_cases hpj : p.1 = j <;> simp [devRemove, devLookup, hpk, hpj, hj, ih]

/-- Removing an absent key leaves the map unchanged. -/
theorem devRemove_absent (m : DeviceMap) (k : String) (h : devLookup m k = none) :
    devRemove m k = m := by
  induction m with
  | nil => rfl
  | cons p ps ih =>
    by_cases hpk : p.1 = k
    · simp [devLookup, hpk] at h
    · simp only [devLookup, hpk, if_false, if_neg hpk] at h
      simp [devRemove, hpk, ih h]

/-! Helper lemmas about the lease scan. -/

/-- A lease list with no entry for the queried MAC resolves to nothing. -/
theorem get_ip_for_no_match (parse : String → Option Nat) (mac : String)
    (leases : List Lease) (h : ∀ x ∈ leases, x.hwaddr ≠ mac) :
    get_ip_for parse mac leases = none := by
  induction leases with
  | nil => rfl
  | cons p ps ih =>
    have hp := h p (List.mem_cons_self p ps)
    simp only [get_ip_for, if_neg hp]
    exact ih fun x hx => h x (List.mem_cons_of_mem p hx)

/-- The scan returns the first entry that both matches the MAC and has a
well-formed address, skipping earlier non-matching or malformed entries. -/
theorem get_ip_for_first (parse : String → Option Nat) (mac : String)
    (pre post : List Lease) (l : Lease) (ip : Nat)
    (hpre : ∀ x ∈ pre, x.hwaddr ≠ mac ∨ parse x.address = none)
    (hl : l.hwaddr = mac) (hip : parse l.address = some ip) :
    get_ip_for parse mac (pre ++ l :: post) = some ip := by
  induction pre with
  | nil => simp [get_ip_for, hl, hip]
  | cons p ps ih =>
    have hrest := ih fun x hx => hpre x (List.mem_cons_of_mem p hx)
    rcases hpre p (List.mem_cons_self p ps) with hp | hp
    · simpa [get_ip_for, hp] using hrest
    · by_cases hmac : p.hwaddr = mac <;> simpa [get_ip_for, hmac, hp] using hrest

/-! The claims. -/

/-- Claim C1: the daemon-status-code-to-State mapping maps 101 (Started),
103 (Running), 107 (Stopping) and 111 (Thawed) to `running`; 102 to
`stopped`; 106 to `starting`; 109 to `suspending`; 110 to `suspended`;
104, 108 and 112 to `unknown`; every unrecognized code to `unknown` with
the error log; and never produces any other state. -/
theorem C1_status_code_mapping :
    instance_state_for 101 = (State.running, false)
  ∧ instance_state_for 103 = (State.running, false)
  ∧ instance_state_for 107 = (State.running, false)
  ∧ instance_state_for 111 = (State.running, false)
  ∧ instance_state_for 102 = (State.stopped, false)
  ∧ instance_state_for 106 = (State.starting, false)
  ∧ instance_state_for 109 = (State.suspending, false)
  ∧ instance_state_for 110 = (State.suspended, false)
  ∧ instance_state_for 104 = (State.unknown, false)
  ∧ instance_state_for 108 = (State.unknown, false)
  ∧ instance_state_for 112 = (State.unknown, false)
  ∧ (∀ c : Int,
      ¬ (c = 101 ∨ c = 102 ∨ c = 103 ∨ c = 104 ∨ c = 106 ∨ c = 107 ∨ c = 108 ∨
         c = 109 ∨ c = 110 ∨ c = 111 ∨ c = 112) →
      instance_state_for c = (State.unknown, true))
  ∧ (∀ c : Int,
      (instance_state_for c).1 = State.running ∨ (instance_state_for c).1 = State.stopped ∨
      (instance_state_for c).1 = State.starting ∨ (instance_state_for c).1 = State.suspending ∨
      (instance_state_for c).1 = State.suspended ∨ (instance_state_for c).1 = State.unknown) := by
  refine ⟨by decide, by decide, by decide, by decide, by decide, by decide, by decide,
    by decide, by decide, by decide, by decide, ?_, ?_⟩
  · intro c h
    simp only [instance_state_for]
    split_ifs with h1 h2 h3 h4 h5 h6
    · exact absurd h1 (by tauto)
    · exact absurd h2 (by tauto)
    · exact absurd h3 (by tauto)
    · exact absurd h4 (by tauto)
    · exact absurd h5 (by tauto)
    · exact absurd h6 (by tauto)
    · rfl
  · intro c
    simp only [instance_state_for]
    split_ifs <;> simp

/-- Witness for C1: the unrecognized code 999 maps to `unknown` with the
error log. -/
theorem C1_status_code_mapping_witness :
    instance_state_for 999 = (State.unknown, true) :=
  C1_status_code_mapping.2.2.2.2.2.2.2.2.2.2.2.1 999 (by decide)

/-- Claim C2 as stated is false on the code: when the freshly re-derived
state is `stopped`, `stop()` indeed issues no stop request, persists
nothing and keeps the cached port, but the `current_state()` call inside
`stop()` overwrites the cached state with the fresh result, so a cached
`running` becomes `stopped` — the cached state is not left unchanged. -/
theorem C2_stop_noop_counterexample :
    (instance_state_for 102).1 = State.stopped
  ∧ stop ⟨State.running, some 22, false, true⟩ (.ok 102) true =
      .ok (some ⟨⟨State.stopped, some 22, false, true⟩, [], []⟩)
  ∧ State.stopped ≠ State.running := ⟨by decide, rfl, by decide⟩

/-- Claim C2 (amended): for every instance whose freshly re-derived state is
`stopped` or `suspended`, `stop()` returns without issuing any remote stop
request, leaves the cached SSH port and the persisted state unchanged, and
sets the cached state to that freshly derived state. -/
theorem C2_stop_noop (vm : VM) (code : Int) (sig : Bool)
    (h : (instance_state_for code).1 = State.stopped ∨
         (instance_state_for code).1 = State.suspended) :
    stop vm (.ok code) sig =
      .ok (some ⟨{ vm with state := (instance_state_for code).1 }, [], []⟩) := by
  rcases h with h | h <;> simp [stop, current_state, h]

/-- Witness for the amended C2: a running-cached instance whose daemon
reports code 102 (Stopped). -/
theorem C2_stop_noop_witness :
    stop ⟨State.running, some 22, false, true⟩ (.ok 102) true =
      .ok (some ⟨⟨(instance_state_for 102).1, some 22, false, true⟩, [], []⟩) :=
  C2_stop_noop ⟨State.running, some 22, false, true⟩ 102 true (Or.inl (by decide))

/-- Claim C3: constructing the mount handler for an instance whose current
state is neither `stopped` nor `off` throws the precondition violation
("Please stop the instance ... before mount it natively.") before any
remote device-map mutation; when the state is `stopped` or `off`,
construction proceeds to add the device. -/
theorem C3_mount_precondition (vm_name : String) (st1 st2 : State) (devices : DeviceMap)
    (device_name target source : String)
    (h1 : st1 ≠ State.off ∧ st1 ≠ State.stopped)
    (h2 : st2 = State.off ∨ st2 = State.stopped) :
    lxd_mount_handler_construct vm_name st1 devices device_name target source =
      .error ("Please stop the instance " ++ vm_name ++ " before mount it natively.")
  ∧ lxd_mount_handler_construct vm_name st2 devices device_name target source =
      .ok (lxd_device_add devices device_name target source) := by
  constructor
  · simp [lxd_mount_handler_construct, h1.1, h1.2]
  · rcases h2 with h | h <;> simp [lxd_mount_handler_construct, h]

/-- Witness for C3: a `running` instance rejects the mount, a `stopped`
instance accepts it. -/
theorem C3_mount_precondition_witness :
    lxd_mount_handler_construct "vm1" State.running [] "d_x" "/home/user/proj" "/host/proj" =
      .error ("Please stop the instance " ++ "vm1" ++ " before mount it natively.")
  ∧ lxd_mount_handler_construct "vm1" State.stopped [] "d_x" "/home/user/proj" "/host/proj" =
      .ok (lxd_device_add [] "d_x" "/home/user/proj" "/host/proj") :=
  C3_mount_precondition "vm1" State.running State.stopped [] "d_x" "/home/user/proj"
    "/host/proj" ⟨by decide, by decide⟩ (Or.inr rfl)

/-- Claim C4: on a device map not yet holding the target's derived device
name, `lxd_device_add` followed by `lxd_device_remove` for the same name
restores the original map; the name is absent from the round-tripped map
and every entry under a different name is preserved (the add and remove
both read-merge-write the full map); and `lxd_device_remove` of an absent
name leaves the map unchanged rather than failing. -/
theorem C4_attach_detach_roundtrip (m : DeviceMap) (device_name j target source : String)
    (hj : j ≠ device_name) (habs : devLookup m device_name = none) :
    lxd_device_remove (lxd_device_add m device_name target source) device_name = m
  ∧ devLookup (lxd_device_remove (lxd_device_add m device_name target source) device_name)
      device_name = none
  ∧ devLookup (lxd_device_remove (lxd_device_add m device_name target source) device_name) j =
      devLookup m j
  ∧ lxd_device_remove m device_name = m := by
  have hround : lxd_device_remove (lxd_device_add m device_name target source) device_name =
      devRemove m device_name := devRemove_devInsert m device_name _
  have hnoop : devRemove m device_name = m := devRemove_absent m device_name habs
  refine ⟨?_, ?_, ?_, hnoop⟩
  · rw [hround, hnoop]
  · rw [hround, hnoop]
    exact habs
  · rw [hround, hnoop]

/-- Witness for C4: round-trip of device `d_x` over a map holding only
`d_other`, which is preserved. -/
theorem C4_attach_detach_roundtrip_witness :
    lxd_device_remove (lxd_device_add [("d_other", ⟨"/o", "/h", "disk"⟩)] "d_x"
        "/home/user/proj" "/host/proj") "d_x" = [("d_other", ⟨"/o", "/h", "disk"⟩)]
  ∧ devLookup (lxd_device_remove (lxd_device_add [("d_other", ⟨"/o", "/h", "disk"⟩)] "d_x"
        "/home/user/proj" "/host/proj") "d_x") "d_x" = none
  ∧ devLookup (lxd_device_remove (lxd_device_add [("d_other", ⟨"/o", "/h", "disk"⟩)] "d_x"
        "/home/user/proj" "/host/proj") "d_x") "d_other" =
      devLookup [("d_other", ⟨"/o", "/h", "disk"⟩)] "d_other"
  ∧ lxd_device_remove [("d_other", ⟨"/o", "/h", "disk"⟩)] "d_x" =
      [("d_other", ⟨"/o", "/h", "disk"⟩)] :=
  C4_attach_detach_roundtrip [("d_other", ⟨"/o", "/h", "disk"⟩)] "d_x" "d_other"
    "/home/user/proj" "/host/proj" (by decide) (by decide)

/-- Claim C5: when the cached state is `starting` or `delayed_shutdown` and
the freshly polled daemon state maps to `running`, `current_state()` returns
the cached transitional state and leaves the object fields unchanged. -/
theorem C5_debounce (vm : VM) (code : Int)
    (hcached : vm.state = State.starting ∨ vm.state = State.delayed_shutdown)
    (hpolled : (instance_state_for code).1 = State.running) :
    current_state vm (.ok code) = .ok ⟨vm.state, vm, false⟩ := by
  rcases hcached with h | h <;> simp [current_state, h, hpolled]

/-- Witness for C5: a `starting` cache polled as code 103 (Running) stays
`starting`. -/
theorem C5_debounce_witness :
    current_state ⟨State.starting, some 22, false, true⟩ (.ok 103) =
      .ok ⟨State.starting, ⟨State.starting, some 22, false, true⟩, false⟩ :=
  C5_debounce ⟨State.starting, some 22, false, true⟩ 103 (Or.inl rfl) (by decide)

/-- Claim C6: the lease resolver returns `none` (absent, not an error) when
no lease matches the queried MAC; returns the address of the first matching
well-formed lease when one exists; and skips a matching lease whose address
is malformed, so a malformed matching entry followed by a valid matching
entry still resolves to the valid entry's address. -/
theorem C6_resolve_ip (parse : String → Option Nat) (mac : String)
    (leases pre post : List Lease) (l l1 l2 : Lease) (ip ip2 : Nat)
    (hnone : ∀ x ∈ leases, x.hwaddr ≠ mac)
    (hpre : ∀ x ∈ pre, x.hwaddr ≠ mac ∨ parse x.address = none)
    (hl : l.hwaddr = mac) (hip : parse l.address = some ip)
    (h1 : l1.hwaddr = mac) (h1m : parse l1.address = none)
    (h2 : l2.hwaddr = mac) (h2ip : parse l2.address = some ip2) :
    get_ip_for parse mac leases = none
  ∧ get_ip_for parse mac (pre ++ l :: post) = some ip
  ∧ get_ip_for parse mac [l1, l2] = some ip2 := by
  refine ⟨get_ip_for_no_match parse mac leases hnone,
    get_ip_for_first parse mac pre post l ip hpre hl hip, ?_⟩
  simp [get_ip_for, h1, h1m, h2, h2ip]

/-- Witness for C6 with a concrete parse function: an empty list resolves to
nothing, a valid lease after a non-matching one resolves, and a malformed
matching lease followed by a valid one resolves to the valid address. -/
theorem C6_resolve_ip_witness :
    get_ip_for (fun s => if s = "10.1.1.5" then some 5 else none) "aa:bb" [] = none
  ∧ get_ip_for (fun s => if s = "10.1.1.5" then some 5 else none) "aa:bb"
      ([⟨"cc:dd", "10.1.1.5"⟩] ++ ⟨"aa:bb", "10.1.1.5"⟩ :: []) = some 5
  ∧ get_ip_for (fun s => if s = "10.1.1.5" then some 5 else none) "aa:bb"
      [⟨"aa:bb", "garbage"⟩, ⟨"aa:bb", "10.1.1.5"⟩] = some 5 :=
  C6_resolve_ip (fun s => if s = "10.1.1.5" then some 5 else none) "aa:bb"
    [] [⟨"cc:dd", "10.1.1.5"⟩] [] ⟨"aa:bb", "10.1.1.5"⟩ ⟨"aa:bb", "garbage"⟩
    ⟨"aa:bb", "10.1.1.5"⟩ 5 5 (by decide) (by decide) (by decide) (by decide)
    (by decide) (by decide) (by decide) (by decide)

/-- Claim C7: a transport failure (`LocalSocketConnectionException`) during
the state poll is not raised to the caller of `current_state()`: the warning
is logged, the cached state is set to `unknown`, and `unknown` is
returned. -/
theorem C7_transport_failure (vm : VM) :
    current_state vm (.error PollError.localSocketConnection) =
      .ok ⟨State.unknown, { vm with state := State.unknown }, true⟩ := rfl

/-- Claim C8: when the state re-derived at the top of `stop()` is
`starting` (and the shutdown-while-starting flag is not yet set), the call
does not return while the signal is undelivered, and once it is delivered
the call returns with the cached state `stopped` and the cached SSH port
cleared. -/
theorem C8_stop_while_starting (vm : VM) (poll : Except PollError Int) (cs : CSResult)
    (hcs : current_state vm poll = .ok cs)
    (hstart : cs.ret = State.starting)
    (hflag : cs.vm.shutdown_while_starting = false) :
    stop vm poll false = .ok none
  ∧ ∃ r : StopOutcome,
      stop vm poll true = .ok (some r)
      ∧ r.vm.state = State.stopped
      ∧ r.vm.port = none
      ∧ r.vm.shutdown_while_starting = true := by
  constructor
  · simp [stop, hcs, hstart, hflag]
  · refine ⟨⟨{ cs.vm with
        state := State.stopped,
        port := none,
        shutdown_while_starting := true }, ["stop"],
        if vm.update_shutdown_status then [State.stopped] else []⟩, ?_, rfl, rfl, rfl⟩
    simp [stop, hcs, hstart, hflag]

/-- Witness for C8: an `unknown`-cached instance polled as code 106
(Starting). -/
theorem C8_stop_while_starting_witness :
    stop ⟨State.unknown, some 22, false, true⟩ (.ok 106) false = .ok none
  ∧ ∃ r : StopOutcome,
      stop ⟨State.unknown, some 22, false, true⟩ (.ok 106) true = .ok (some r)
      ∧ r.vm.state = State.stopped
      ∧ r.vm.port = none
      ∧ r.vm.shutdown_while_starting = true :=
  C8_stop_while_starting ⟨State.unknown, some 22, false, true⟩ (.ok 106)
    ⟨State.starting, ⟨State.starting, some 22, false, true⟩, false⟩ rfl rfl rfl

/-- Claim C9: the resize operations enforce their positivity preconditions
as fatal assertions: a non-positive argument aborts with no PATCH request
issued, and a positive argument passes the assertion and issues the
PATCH. -/
theorem C9_resize_preconditions (pool : String) (n b d m2 b2 d2 : Int)
    (hn : 0 < n) (hb : 0 < b) (hd : 0 < d)
    (hm2 : m2 ≤ 0) (hb2 : b2 ≤ 0) (hd2 : d2 ≤ 0) :
    update_cpus n = some ("PATCH", [("limits.cpu", toString n)])
  ∧ resize_memory b = some ("PATCH", [("limits.memory", toString b)])
  ∧ resize_disk pool d = some ("PATCH",
      [("path", "/"), ("pool", pool), ("size", toString d), ("type", "disk")])
  ∧ update_cpus m2 = none
  ∧ resize_memory b2 = none
  ∧ resize_disk pool d2 = none := by
  refine ⟨?_, ?_, ?_, ?_, ?_, ?_⟩
  · simp [update_cpus, hn]
  · simp [resize_memory, hb]
  · simp [resize_disk, hd]
  · simp [update_cpus, not_lt.mpr hm2]
  · simp [resize_memory, not_lt.mpr hb2]
  · simp [resize_disk, not_lt.mpr hd2]

/-- Witness for C9 at concrete sizes: 3 cores / 5 bytes / 7 bytes succeed,
0 / -1 / -2 abort. -/
theorem C9_resize_preconditions_witness :
    update_cpus 3 = some ("PATCH", [("limits.cpu", toString (3 : Int))])
  ∧ resize_memory 5 = some ("PATCH", [("limits.memory", toString (5 : Int))])
  ∧ resize_disk "default" 7 = some ("PATCH",
      [("path", "/"), ("pool", "default"), ("size", toString (7 : Int)), ("type", "disk")])
  ∧ update_cpus 0 = none
  ∧ resize_memory (-1) = none
  ∧ resize_disk "default" (-2) = none :=
  C9_resize_preconditions "default" 3 5 7 0 (-1) (-2)
    (by decide) (by decide) (by decide) (by decide) (by decide) (by decide)

/-- Claim C10: `ssh_port()` returns 22 in every cached state, and still
returns 22 after a completed `stop()` has cleared the cached port field. -/
theorem C10_ssh_port_constant (vm : VM) (poll : Except PollError Int) (sig : Bool)
    (r : StopOutcome) (hstop : stop vm poll sig = .ok (some r)) :
    ssh_port vm = 22 ∧ ssh_port r.vm = 22 := ⟨rfl, rfl⟩

/-- Witness for C10: a running instance stopped via code 102 still reports
port 22. -/
theorem C10_ssh_port_constant_witness :
    ssh_port ⟨State.running, some 22, false, true⟩ = 22
  ∧ ssh_port (⟨State.stopped, some 22, false, true⟩ : VM) = 22 :=
  C10_ssh_port_constant ⟨State.running, some 22, false, true⟩ (.ok 102) true
    ⟨⟨State.stopped, some 22, false, true⟩, [], []⟩ rfl

end LXD
